import Mathlib

/-!
Verification development for the ContextKit VS Code extension's command
orchestration core (`src/extension.ts`).  The TypeScript workflows are
shallowly embedded as pure Lean functions: subprocess behaviour is supplied
by an environment oracle, and each workflow returns the list of argument
vectors it spawned together with its observable outcome.
-/

/-- ASCII whitespace recognised by the embedding of JavaScript `trim` /
the `\s` regex class (space, tab, newline, carriage return, vertical tab,
form feed). -/
def wsChar (c : Char) : Bool :=
  c == ' ' || c == '\t' || c == '\n' || c == '\r' || c == Char.ofNat 11 || c == Char.ofNat 12

/-- Embedding of JavaScript `String.prototype.trim`: drop whitespace from
both ends. -/
def jsTrim (s : String) : String :=
  ⟨((s.data.dropWhile wsChar).reverse.dropWhile wsChar).reverse⟩

/-- Embedding of `s.slice(0, n)` for a string (`selection.slice(0, 500)`). -/
def strTake (n : Nat) (s : String) : String :=
  ⟨s.data.take n⟩

/-- Does `pat` occur at the head of `l`? Helper for substring search. -/
def leadsWith : List Char → List Char → Bool
  | [], _ => true
  | _ :: _, [] => false
  | a :: as, b :: bs => a == b && leadsWith as bs

/-- Does `pat` occur anywhere in `l`? Helper for substring search. -/
def occursIn (pat : List Char) : List Char → Bool
  | [] => leadsWith pat []
  | c :: cs => leadsWith pat (c :: cs) || occursIn pat cs

/-- Embedding of JavaScript `s.includes(sub)` (substring containment). -/
def strIncludes (s sub : String) : Bool :=
  occursIn sub.data s.data

/-- Embedding of `selection.trim().split(/[\s(]/)[0]` from `showCallGraph`:
the first run of characters before whitespace or an opening parenthesis. -/
def firstToken (s : String) : String :=
  ⟨s.data.takeWhile (fun c => !(wsChar c || c == '('))⟩

/-- The shell metacharacter deny-list of `getCliPath` (`/[;&|`$]/`,
the backquote written via its code point). -/
def denyChars : List Char := [';', '&', '|', Char.ofNat 96, '$']

/-- Default executable name used when no `cliPath` is configured. -/
def defaultCli : String := "contextkit"

/-- Embedding of `getCliPath`: `config.get('cliPath') || 'contextkit'`
followed by the deny-list test; a match throws `Invalid CLI path`. -/
def getCliPath (configured : Option String) : Except String String :=
  let cliPath :=
    match configured with
    | none => defaultCli
    | some s => if s = "" then defaultCli else s
  if cliPath.data.any (fun c => denyChars.contains c) then
    Except.error "Invalid CLI path"
  else
    Except.ok cliPath

/-- Which event settles the promise inside `runContextKit`: the `close`
handler with an exit code (possibly `null`), or the `error` handler with a
launch error message. -/
inductive SpawnEvent
  | close : Option Int → SpawnEvent
  | launchFail : String → SpawnEvent
deriving DecidableEq

/-- Settled state of the `runContextKit` promise, tagged by which handler
fired: resolution with stdout, rejection from the `close` handler, or
rejection from the `error` (launch failure) handler. -/
inductive RunResult
  | success : String → RunResult
  | exitFailure : Option Int → String → RunResult
  | launchFailure : String → RunResult
deriving DecidableEq

/-- Rendering of the exit code inside the template literal
`` `Exit code ${code}` `` (JavaScript renders `null` as `"null"`). -/
def codeText : Option Int → String
  | none => "null"
  | some n => toString n

/-- Embedding of the promise settlement in `runContextKit`:
`if (code === 0) resolve(stdout) else reject(new Error(stderr || `Exit code ${code}`))`
on `close`, and `reject(error)` on `error`. -/
def settleSpawn (ev : SpawnEvent) (stdout stderr : String) : RunResult :=
  match ev with
  | .close code =>
      if code = some 0 then .success stdout
      else .exitFailure code (if stderr = "" then "Exit code " ++ codeText code else stderr)
  | .launchFail msg => .launchFailure msg

/-- Collapse a settled run to the `Except` shape the async callers see:
rejection carries only the error message. -/
def resultToExcept : RunResult → Except String String
  | .success out => .ok out
  | .exitFailure _ m => .error m
  | .launchFailure m => .error m

/-- Behaviour of one spawned process: which event settles the promise and
the text accumulated on the two output streams. -/
structure SpawnBehavior where
  event : SpawnEvent
  stdout : String
  stderr : String

/-- The message-level result of settling a spawn behaviour. -/
def spawnExcept (b : SpawnBehavior) : Except String String :=
  resultToExcept (settleSpawn b.event b.stdout b.stderr)

/-- The environment a workflow runs in: the resolved workspace root (if
any), whether `{workspacePath}/src` exists, the configured `cliPath` and
`defaultBudget`, and an oracle giving each argument vector's spawn
behaviour. -/
structure Env where
  workspace : Option String
  srcExists : Bool
  cliPath : Option String
  defaultBudget : Option Nat
  proc : List String → SpawnBehavior

/-- Embedding of `config.get('defaultBudget') || 8000` (`0` is falsy). -/
def budgetOf (env : Env) : Nat :=
  match env.defaultBudget with
  | none => 8000
  | some b => if b = 0 then 8000 else b

/-- Embedding of `runContextKit`: validate the CLI path (throwing before
any spawn), then spawn once and settle.  Returns the spawned argument
vectors alongside the settled result. -/
def runContextKit (env : Env) (args : List String) : List (List String) × Except String String :=
  match getCliPath env.cliPath with
  | .error m => ([], .error m)
  | .ok _cli => ([args], spawnExcept (env.proc args))

/-- The user-visible action chosen by `handleError`: the "Workspace not
indexed / Index Now" prompt, the CLI install hint, or the raw message. -/
inductive ErrorAction
  | promptIndex
  | installHint
  | showRaw : String → ErrorAction
deriving DecidableEq

/-- Embedding of `handleError`'s branch structure over the error message:
`not initialized`/`ENOENT` prompts indexing; else `ENOENT`/`not found`
shows the install hint; else the raw message is shown. -/
def handleError (msg : String) : ErrorAction :=
  if strIncludes msg "not initialized" || strIncludes msg "ENOENT" then
    .promptIndex
  else if strIncludes msg "ENOENT" || strIncludes msg "not found" then
    .installHint
  else
    .showRaw msg

/-- Observable outcome of one query workflow run. -/
inductive QueryOutcome
  | noWorkspace
  | noInput
  | emptyResult
  | published : String → QueryOutcome
  | errorHandled : ErrorAction → QueryOutcome
deriving DecidableEq

/-- Argument vector of `selectContext`:
`['select', query.trim(), '--budget', String(budget), '--format', 'markdown']`. -/
def selectArgs (env : Env) (q : String) : List String :=
  ["select", jsTrim q, "--budget", toString (budgetOf env), "--format", "markdown"]

/-- Argument vector of `selectContextFromSelection`: the selection is cut
to 500 characters, trimmed, and prefixed with `Related to: `. -/
def selectionArgs (env : Env) (sel : String) : List String :=
  ["select", "Related to: " ++ jsTrim (strTake 500 sel),
   "--budget", toString (budgetOf env), "--format", "markdown"]

/-- Argument vector of `findSymbol`: `['symbol', symbolName.trim()]`. -/
def symbolArgs (name : String) : List String :=
  ["symbol", jsTrim name]

/-- Argument vector of `showCallGraph`: `['graph', functionName.trim()]`. -/
def graphArgs (fn : String) : List String :=
  ["graph", jsTrim fn]

/-- Argument vector of `getCodebaseMap`: a non-empty trimmed query is used
as-is, otherwise the fixed query `codebase overview`; the mode is `map`
and the budget the literal `16000`. -/
def mapArgs (query : Option String) : List String :=
  match query with
  | some q =>
      if jsTrim q = "" then
        ["select", "codebase overview", "--mode", "map", "--budget", "16000"]
      else
        ["select", jsTrim q, "--mode", "map", "--budget", "16000"]
  | none => ["select", "codebase overview", "--mode", "map", "--budget", "16000"]

/-- Embedding of `selectContext`: workspace check, input box, run the
tool, empty-output check, publish; failures go to `handleError`. -/
def selectContext (env : Env) (input : Option String) : List (List String) × QueryOutcome :=
  match env.workspace with
  | none => ([], .noWorkspace)
  | some _w =>
    match input with
    | none => ([], .noInput)
    | some q =>
      if jsTrim q = "" then ([], .noInput)
      else
        let r := runContextKit env (selectArgs env q)
        match r.2 with
        | .error m => (r.1, .errorHandled (handleError m))
        | .ok out => if jsTrim out = "" then (r.1, .emptyResult) else (r.1, .published out)

/-- Embedding of `selectContextFromSelection`: editor and selection checks
come first, then the workspace check, then the run. -/
def selectContextFromSelection (env : Env) (editorSel : Option String) :
    List (List String) × QueryOutcome :=
  match editorSel with
  | none => ([], .noInput)
  | some sel =>
    if jsTrim sel = "" then ([], .noInput)
    else
      match env.workspace with
      | none => ([], .noWorkspace)
      | some _w =>
        let r := runContextKit env (selectionArgs env sel)
        match r.2 with
        | .error m => (r.1, .errorHandled (handleError m))
        | .ok out => if jsTrim out = "" then (r.1, .emptyResult) else (r.1, .published out)

/-- Embedding of `findSymbol`: workspace check, symbol-name input box, run
`symbol`, empty-output check. -/
def findSymbol (env : Env) (input : Option String) : List (List String) × QueryOutcome :=
  match env.workspace with
  | none => ([], .noWorkspace)
  | some _w =>
    match input with
    | none => ([], .noInput)
    | some name =>
      if jsTrim name = "" then ([], .noInput)
      else
        let r := runContextKit env (symbolArgs name)
        match r.2 with
        | .error m => (r.1, .errorHandled (handleError m))
        | .ok out => if jsTrim out = "" then (r.1, .emptyResult) else (r.1, .published out)

/-- Embedding of `showCallGraph`: editor check, workspace check, function
name from the selection's first token or from an input box, run `graph`;
empty output or a `No call relationships` marker is the empty result. -/
def showCallGraph (env : Env) (editorSel : Option String) (input : Option String) :
    List (List String) × QueryOutcome :=
  match editorSel with
  | none => ([], .noInput)
  | some sel =>
    match env.workspace with
    | none => ([], .noWorkspace)
    | some _w =>
      let functionName := if jsTrim sel = "" then input else some (firstToken (jsTrim sel))
      match functionName with
      | none => ([], .noInput)
      | some fn =>
        if jsTrim fn = "" then ([], .noInput)
        else
          let r := runContextKit env (graphArgs fn)
          match r.2 with
          | .error m => (r.1, .errorHandled (handleError m))
          | .ok out =>
            if jsTrim out = "" ∨ strIncludes out "No call relationships" = true then
              (r.1, .emptyResult)
            else (r.1, .published out)

/-- Embedding of `getCodebaseMap`: workspace check, optional query input
(an empty or cancelled input still proceeds with the fixed query), run
`select --mode map --budget 16000`, empty-output check. -/
def getCodebaseMap (env : Env) (input : Option String) : List (List String) × QueryOutcome :=
  match env.workspace with
  | none => ([], .noWorkspace)
  | some _w =>
    let r := runContextKit env (mapArgs input)
    match r.2 with
    | .error m => (r.1, .errorHandled (handleError m))
    | .ok out => if jsTrim out = "" then (r.1, .emptyResult) else (r.1, .published out)

/-- The module-level `isIndexing` single-flight flag. -/
structure IndexState where
  isIndexing : Bool
deriving DecidableEq

/-- Observable outcome of one `indexWorkspace` run. -/
inductive IndexOutcome
  | alreadyInProgress
  | noWorkspace
  | completed
  | failed : String → IndexOutcome
deriving DecidableEq

/-- Embedding of the inner try/catch of `indexWorkspace`: run
`doctor --json`; on any failure run `init` and then
`source add ./src` (if `src` exists) or `source add .`; a failure of
`init` or `source add` propagates to the outer catch. -/
def indexSetup (env : Env) : List (List String) × Except String Unit :=
  let d := runContextKit env ["doctor", "--json"]
  match d.2 with
  | .ok _ => (d.1, .ok ())
  | .error _ =>
    let i := runContextKit env ["init"]
    match i.2 with
    | .error m => (d.1 ++ i.1, .error m)
    | .ok _ =>
      let src := if env.srcExists then "./src" else "."
      let s := runContextKit env ["source", "add", src]
      match s.2 with
      | .error m => (d.1 ++ i.1 ++ s.1, .error m)
      | .ok _ => (d.1 ++ i.1 ++ s.1, .ok ())

/-- Embedding of `indexWorkspace` (the Recovery Workflow): the
single-flight guard, the workspace check, the setup phase, the
unconditional `index` run, with `isIndexing` reset in the `finally`. -/
def indexWorkspace (env : Env) (st : IndexState) :
    IndexState × List (List String) × IndexOutcome :=
  if st.isIndexing then (st, [], .alreadyInProgress)
  else
    match env.workspace with
    | none => (st, [], .noWorkspace)
    | some _w =>
      let setup := indexSetup env
      match setup.2 with
      | .error m => (⟨false⟩, setup.1, .failed m)
      | .ok _ =>
        let r := runContextKit env ["index"]
        match r.2 with
        | .error m => (⟨false⟩, setup.1 ++ r.1, .failed m)
        | .ok _ => (⟨false⟩, setup.1 ++ r.1, .completed)

/-- One entry of the structured `doctor --json` payload
(spec `ReadinessReport`). -/
structure CheckEntry where
  name : String
  status : String
deriving DecidableEq

/-- Embedding of `checks.some((c) => c.status === 'error')` from the
repository's earlier `checkAndIndex` variant: the payload signals
not-ready iff some entry has status `error`. -/
def hasErrors (checks : List CheckEntry) : Bool :=
  checks.any (fun c => c.status == "error")

/-- A string all of whose characters are whitespace trims to empty. -/
theorem jsTrim_eq_empty (s : String) (h : ∀ c ∈ s.data, wsChar c = true) : jsTrim s = "" := by
  unfold jsTrim
  rw [List.dropWhile_eq_nil_iff.mpr h]
  rfl

/-- Spawn behaviour that exits 0 with the given stdout. -/
def okBeh (out : String) : SpawnBehavior := ⟨.close (some 0), out, ""⟩

/-- Spawn behaviour that exits 1 with the given stderr. -/
def failBeh (err : String) : SpawnBehavior := ⟨.close (some 1), "", err⟩

/-- Environment with a deny-listed configured CLI path. -/
def envBad : Env := ⟨some "/w", false, some "evil;rm", none, fun _ => okBeh "ok"⟩

/-- Environment with a clean configured CLI path; every spawn succeeds. -/
def envGood : Env := ⟨some "/w", false, some "tool", none, fun _ => okBeh "ok"⟩

/-- C4: the Process Runner resolves exit code 0 with the full stdout,
rejects a non-zero exit code with stderr (falling back to `Exit code {n}`
when stderr is empty), and rejects a launch error with that error's own
message and no exit code. -/
theorem C4_processRunnerMapping (n : Int) (sout serr m : String) :
    settleSpawn (.close (some 0)) sout serr = .success sout ∧
    (n ≠ 0 → settleSpawn (.close (some n)) sout serr =
      .exitFailure (some n) (if serr = "" then "Exit code " ++ toString n else serr)) ∧
    settleSpawn (.launchFail m) sout serr = .launchFailure m := by
  refine ⟨by simp [settleSpawn], ?_, by simp [settleSpawn]⟩
  intro hn
  simp [settleSpawn, codeText, hn]

/-- C4 witness: concrete evaluations of the three outcome shapes. -/
theorem C4_processRunnerMapping_witness :
    settleSpawn (.close (some 2)) "out" "" =
      .exitFailure (some 2) (if ("" : String) = "" then "Exit code " ++ toString (2 : Int) else "") :=
  (C4_processRunnerMapping 2 "out" "" "spawn ENOENT").2.1 (by decide)

/-- C9: a `close` event with a `null` exit code rejects through the
non-zero branch with stderr or the literal `Exit code null`; it neither
resolves nor takes the launch-failure path. -/
theorem C9_nullExitCode (sout serr : String) :
    settleSpawn (.close none) sout serr =
      .exitFailure none (if serr = "" then "Exit code null" else serr) := by
  have h : "Exit code " ++ codeText none = "Exit code null" := by decide
  simp [settleSpawn, h]

/-- C5: evaluation of `handleError` at a launch-failure message.  A message
containing `ENOENT` is captured by the first branch and produces the
"Workspace not indexed / Index Now" prompt, not the CLI install hint; a
plain `not found` message does reach the install hint. -/
theorem C5_enoentMisrouted :
    handleError "spawn contextkit ENOENT" = ErrorAction.promptIndex ∧
    handleError "contextkit: not found" = ErrorAction.installHint := by
  decide

/-- C6: a configured tool path containing a deny-listed character fails
CLI-path validation with `Invalid CLI path` before any spawn (the run
returns no spawned argument vector), while a path free of those
characters passes validation unchanged. -/
theorem C6_denyList (env : Env) (s : String) (args : List String)
    (hs : env.cliPath = some s) (hne : s ≠ "") :
    (s.data.any (fun c => denyChars.contains c) = true →
      getCliPath (some s) = .error "Invalid CLI path" ∧
      runContextKit env args = ([], .error "Invalid CLI path")) ∧
    (s.data.any (fun c => denyChars.contains c) = false →
      getCliPath (some s) = .ok s) := by
  constructor
  · intro h
    have hmem : ∃ x ∈ s.data, x ∈ denyChars := by simpa using h
    have hg : getCliPath (some s) = .error "Invalid CLI path" := by
      simp [getCliPath, hne, hmem]
    exact ⟨hg, by simp [runContextKit, hs, hg]⟩
  · intro h
    have hno : ∀ x ∈ s.data, x ∉ denyChars := by simpa using h
    simpa [getCliPath, hne] using hno

/-- C6 witness: `evil;rm` is rejected with no spawn; `tool` passes. -/
theorem C6_denyList_witness :
    runContextKit envBad ["doctor", "--json"] = ([], .error "Invalid CLI path") ∧
    getCliPath (some "tool") = .ok "tool" :=
  ⟨((C6_denyList envBad "evil;rm" ["doctor", "--json"] rfl (by decide)).1 (by decide)).2,
   (C6_denyList envGood "tool" [] rfl (by decide)).2 (by decide)⟩

/-- C10: the codebase-map workflow always spawns
`select <query> --mode map --budget 16000` — the budget is the literal
`16000` whatever `defaultBudget` holds, no `--format` flag is built, and
an absent or blank query becomes the fixed query `codebase overview`. -/
theorem C10_mapArgsFixed (env : Env) (w cli q : String) (input : Option String)
    (hw : env.workspace = some w) (hcli : getCliPath env.cliPath = .ok cli) :
    mapArgs none = ["select", "codebase overview", "--mode", "map", "--budget", "16000"] ∧
    (jsTrim q = "" →
      mapArgs (some q) = ["select", "codebase overview", "--mode", "map", "--budget", "16000"]) ∧
    (jsTrim q ≠ "" →
      mapArgs (some q) = ["select", jsTrim q, "--mode", "map", "--budget", "16000"]) ∧
    (∃ qq, mapArgs input = ["select", qq, "--mode", "map", "--budget", "16000"]) ∧
    (getCodebaseMap env input).1 = [mapArgs input] := by
  refine ⟨rfl, fun h => by simp [mapArgs, h], fun h => by simp [mapArgs, h], ?_, ?_⟩
  · rcases input with _ | q'
    · exact ⟨"codebase overview", rfl⟩
    · by_cases h : jsTrim q' = ""
      · exact ⟨"codebase overview", by simp [mapArgs, h]⟩
      · exact ⟨jsTrim q', by simp [mapArgs, h]⟩
  · rcases hsp : spawnExcept (env.proc (mapArgs input)) with m | out
    · simp [getCodebaseMap, hw, runContextKit, hcli, hsp]
    · simp [getCodebaseMap, hw, runContextKit, hcli, hsp]
      split <;> rfl

/-- C10 witness: the workflow's single spawn for a concrete query. -/
theorem C10_mapArgsFixed_witness :
    (getCodebaseMap envGood (some "auth")).1 = [mapArgs (some "auth")] :=
  (C10_mapArgsFixed envGood "/w" "tool" "auth" (some "auth") rfl rfl).2.2.2.2

/-- Environment with no configured CLI path whose every spawn exits 0 with
whitespace-only stdout. -/
def envWs : Env := ⟨some "/w", false, none, none, fun _ => okBeh "  "⟩

/-- Environment in which `doctor --json` exits 0 while its payload reports
an error entry; every other spawn exits 0. -/
def envErrorPayload : Env :=
  ⟨some "/w", true, none, none, fun _ => okBeh "status error payload"⟩

/-- Environment in which `doctor --json` fails (exit 1) and every other
spawn exits 0. -/
def envNotReady : Env :=
  ⟨some "/w", true, none, none,
   fun args => if args = ["doctor", "--json"] then failBeh "not initialized" else okBeh "done"⟩

/-- Environment in which every spawn (including `doctor --json`) exits 0
with an all-ok payload. -/
def envReadyOk : Env := ⟨some "/w", false, none, none, fun _ => okBeh "[]"⟩

/-- C3: the `isIndexing` flag is a single-flight guard — a request made
while it is set returns the already-in-progress outcome with no spawn and
unchanged state, and any run entered with the flag clear ends with the
flag clear (success, failure, or the early no-workspace exit). -/
theorem C3_singleFlight (env : Env) (st : IndexState) :
    (st.isIndexing = true → indexWorkspace env st = (st, [], .alreadyInProgress)) ∧
    (st.isIndexing = false → ((indexWorkspace env st).1).isIndexing = false) := by
  constructor
  · intro h
    simp [indexWorkspace, h]
  · intro h
    unfold indexWorkspace
    rw [h]
    simp only [Bool.false_eq_true, if_false]
    cases henv : env.workspace
    · exact h
    · cases hs : (indexSetup env).2
      · rfl
      · cases hr : (runContextKit env ["index"]).2 <;> rfl

/-- C3 witness: a busy flag rejects with no spawn; a clear flag is clear
again after a full run. -/
theorem C3_singleFlight_witness :
    indexWorkspace envReadyOk ⟨true⟩ = (⟨true⟩, [], .alreadyInProgress) ∧
    ((indexWorkspace envReadyOk ⟨false⟩).1).isIndexing = false :=
  ⟨(C3_singleFlight envReadyOk ⟨true⟩).1 rfl,
   (C3_singleFlight envReadyOk ⟨false⟩).2 rfl⟩

/-- C8: with no resolvable workspace root, every workflow entry point
returns before any spawn, with at most a passive notice (the
no-workspace or no-input outcome). -/
theorem C8_absentWorkspace (env : Env) (h : env.workspace = none) :
    (∀ input, selectContext env input = ([], .noWorkspace)) ∧
    (∀ sel, (selectContextFromSelection env sel).1 = [] ∧
      ((selectContextFromSelection env sel).2 = .noWorkspace ∨
       (selectContextFromSelection env sel).2 = .noInput)) ∧
    (∀ input, findSymbol env input = ([], .noWorkspace)) ∧
    (∀ sel input, (showCallGraph env sel input).1 = [] ∧
      ((showCallGraph env sel input).2 = .noWorkspace ∨
       (showCallGraph env sel input).2 = .noInput)) ∧
    (∀ input, getCodebaseMap env input = ([], .noWorkspace)) ∧
    (∀ st, (indexWorkspace env st).2.1 = [] ∧
      (st.isIndexing = false → indexWorkspace env st = (st, [], .noWorkspace))) := by
  refine ⟨?_, ?_, ?_, ?_, ?_, ?_⟩
  · intro input
    simp [selectContext, h]
  · intro sel
    rcases sel with _ | s
    · simp [selectContextFromSelection]
    · by_cases hs : jsTrim s = "" <;> simp [selectContextFromSelection, h, hs]
  · intro input
    simp [findSymbol, h]
  · intro sel input
    rcases sel with _ | s
    · simp [showCallGraph]
    · simp [showCallGraph, h]
  · intro input
    simp [getCodebaseMap, h]
  · intro st
    by_cases hst : st.isIndexing
    · simp [indexWorkspace, hst]
    · simp only [Bool.not_eq_true] at hst
      simp [indexWorkspace, hst, h]

/-- C8 witness: a workspace-less environment, one entry point per kind. -/
theorem C8_absentWorkspace_witness :
    selectContext ⟨none, false, none, none, fun _ => okBeh "ok"⟩ (some "auth") =
      ([], .noWorkspace) ∧
    indexWorkspace ⟨none, false, none, none, fun _ => okBeh "ok"⟩ ⟨false⟩ =
      (⟨false⟩, [], .noWorkspace) :=
  ⟨(C8_absentWorkspace ⟨none, false, none, none, fun _ => okBeh "ok"⟩ rfl).1 (some "auth"),
   ((C8_absentWorkspace ⟨none, false, none, none, fun _ => okBeh "ok"⟩ rfl).2.2.2.2.2 ⟨false⟩).2 rfl⟩

/-- C7: in every query workflow, a spawn that resolves with empty or
whitespace-only stdout produces the empty-result outcome, never the
error-handling path. -/
theorem C7_emptyResultOutcome (env : Env) (w cli out q sel fn : String)
    (hw : env.workspace = some w)
    (hcli : getCliPath env.cliPath = .ok cli)
    (hout : ∀ c ∈ out.data, wsChar c = true) :
    (jsTrim q ≠ "" → spawnExcept (env.proc (selectArgs env q)) = .ok out →
      (selectContext env (some q)).2 = .emptyResult) ∧
    (jsTrim sel ≠ "" → spawnExcept (env.proc (selectionArgs env sel)) = .ok out →
      (selectContextFromSelection env (some sel)).2 = .emptyResult) ∧
    (jsTrim q ≠ "" → spawnExcept (env.proc (symbolArgs q)) = .ok out →
      (findSymbol env (some q)).2 = .emptyResult) ∧
    (jsTrim fn ≠ "" → spawnExcept (env.proc (graphArgs fn)) = .ok out →
      (showCallGraph env (some "") (some fn)).2 = .emptyResult) ∧
    (spawnExcept (env.proc (mapArgs none)) = .ok out →
      (getCodebaseMap env none).2 = .emptyResult) := by
  have hte : jsTrim out = "" := jsTrim_eq_empty out hout
  have h0 : jsTrim "" = "" := rfl
  refine ⟨?_, ?_, ?_, ?_, ?_⟩
  · intro hq hsp
    simp [selectContext, hw, runContextKit, hcli, hq, hsp, hte]
  · intro hq hsp
    simp [selectContextFromSelection, hw, runContextKit, hcli, hq, hsp, hte]
  · intro hq hsp
    simp [findSymbol, hw, runContextKit, hcli, hq, hsp, hte]
  · intro hq hsp
    simp [showCallGraph, hw, runContextKit, hcli, h0, hq, hsp, hte]
  · intro hsp
    simp [getCodebaseMap, hw, runContextKit, hcli, hsp, hte]

/-- C7 witness: whitespace-only stdout across two concrete workflows. -/
theorem C7_emptyResultOutcome_witness :
    (selectContext envWs (some "auth")).2 = QueryOutcome.emptyResult ∧
    (getCodebaseMap envWs none).2 = QueryOutcome.emptyResult :=
  ⟨(C7_emptyResultOutcome envWs "/w" "contextkit" "  " "auth" "x" "f"
      rfl rfl (by decide)).1 (by decide) rfl,
   (C7_emptyResultOutcome envWs "/w" "contextkit" "  " "auth" "x" "f"
      rfl rfl (by decide)).2.2.2.2 rfl⟩

/-- C1 counterexample: with `doctor --json` exiting 0 while its payload
carries an error entry, the run spawns only `doctor --json` and `index` —
`init` (and hence the claimed recovery chain) is never invoked. -/
theorem C1_counterexample :
    hasErrors [⟨"index", "error"⟩] = true ∧
    (envErrorPayload.proc ["doctor", "--json"]).event = SpawnEvent.close (some 0) ∧
    (indexWorkspace envErrorPayload ⟨false⟩).2.1 = [["doctor", "--json"], ["index"]] ∧
    ¬ ["init"] ∈ (indexWorkspace envErrorPayload ⟨false⟩).2.1 := by
  decide

/-- C1 (amended): the not-ready path — `init`, then `source add ./src`
when a `src` subdirectory exists else `source add .`, then `index`, in
that order — is taken exactly when the `doctor --json` spawn itself fails;
a zero doctor exit skips it regardless of payload. -/
theorem C1_amendedNotReadyPath (env : Env) (w cli dm o1 o2 o3 : String)
    (hw : env.workspace = some w)
    (hcli : getCliPath env.cliPath = .ok cli)
    (hd : spawnExcept (env.proc ["doctor", "--json"]) = .error dm)
    (hi : spawnExcept (env.proc ["init"]) = .ok o1)
    (hs : spawnExcept (env.proc ["source", "add", if env.srcExists then "./src" else "."]) = .ok o2)
    (hx : spawnExcept (env.proc ["index"]) = .ok o3) :
    indexWorkspace env ⟨false⟩ =
      (⟨false⟩,
       [["doctor", "--json"], ["init"],
        ["source", "add", if env.srcExists then "./src" else "."], ["index"]],
       .completed) := by
  simp [indexWorkspace, indexSetup, runContextKit, hw, hcli, hd, hi, hs, hx]

/-- C1 witness: a failing doctor with `src` present yields exactly the
doctor, init, `source add ./src`, index chain. -/
theorem C1_amendedNotReadyPath_witness :
    indexWorkspace envNotReady ⟨false⟩ =
      (⟨false⟩,
       [["doctor", "--json"], ["init"],
        ["source", "add", if envNotReady.srcExists then "./src" else "."], ["index"]],
       IndexOutcome.completed) :=
  C1_amendedNotReadyPath envNotReady "/w" "contextkit" "not initialized" "done" "done" "done"
    rfl rfl rfl rfl rfl rfl

/-- C2 counterexample: with the workspace ready (doctor exits 0, payload
free of error entries) the run still spawns `index`, so it does not stop
at the readiness check alone. -/
theorem C2_counterexample :
    hasErrors ([] : List CheckEntry) = false ∧
    (indexWorkspace envReadyOk ⟨false⟩).2.1 = [["doctor", "--json"], ["index"]] ∧
    ¬ (indexWorkspace envReadyOk ⟨false⟩).2.1 = [["doctor", "--json"]] := by
  decide

/-- C2 (amended): when the readiness spawn succeeds the workflow skips
`init` and `source add`, but still invokes `index` before reaching the
done state. -/
theorem C2_amendedReadySkipsSetup (env : Env) (w cli dOut iOut : String)
    (hw : env.workspace = some w)
    (hcli : getCliPath env.cliPath = .ok cli)
    (hd : spawnExcept (env.proc ["doctor", "--json"]) = .ok dOut)
    (hx : spawnExcept (env.proc ["index"]) = .ok iOut) :
    indexWorkspace env ⟨false⟩ =
      (⟨false⟩, [["doctor", "--json"], ["index"]], .completed) := by
  simp [indexWorkspace, indexSetup, runContextKit, hw, hcli, hd, hx]

/-- C2 witness: a ready environment runs doctor then index and completes. -/
theorem C2_amendedReadySkipsSetup_witness :
    indexWorkspace envReadyOk ⟨false⟩ =
      (⟨false⟩, [["doctor", "--json"], ["index"]], IndexOutcome.completed) :=
  C2_amendedReadySkipsSetup envReadyOk "/w" "contextkit" "[]" "[]" rfl rfl rfl rfl
